import Mathlib

/-!
Verification of the playback synchronization engine of `jammy-server`
(`app/services/playback_manager.py` and `app/services/websocket_manager.py`).

The embedding is shallow and sequential: each `async` method of
`PlaybackManager` becomes a function from an explicit `World` (the manager's
two in-memory maps plus the durable Supabase-backed stores it talks to) to a
pair of the updated `World` and an `Except`-style outcome, mirroring how a
raised Python exception propagates to the caller while mutations already made
on `self` and on the stores remain in place.  Wall-clock instants are modelled
as integer milliseconds since an arbitrary epoch: every `datetime.now(...)`
read inside a method becomes an explicit `now : Int` argument, and
`(a - b).total_seconds() * 1000` becomes exact integer subtraction.

An `asyncio.Task` armed by `start_playback` is modelled as a `Timer` record
kept in a grow-only trace `World.timers`; `task.cancel()` followed by
`await task` (which the code performs inside `_cancel_session_task` before
returning to the caller) is modelled by atomically setting the timer's
`cancelled` flag — a cancelled asyncio task never resumes past its
`await asyncio.sleep`, so a timer can ever fire iff `cancelled = false`.
-/

deriving instance DecidableEq for Except

namespace Jammy

/-- A row of the `song` table (`app/models/song.py`): the immutable track
catalog entry referenced by queue entries. -/
structure Song where
  id : String
  title : String
  artist : String
  album : Option String
  album_art_url : String
  duration_ms : Int
  spotify_id : String
  spotify_uri : String
deriving DecidableEq

/-- A row of the `session_song` table joined with its `song` (what
`get_next_session_song` / `get_session_queue` / `get_session_song_by_id`
return).  The global list `World.queue` is kept in ascending `position`
order per session, matching the `.order("position")` in every query. -/
structure QueueEntry where
  id : String
  session_id : String
  song : Song
  position : Int
  played : Bool
  played_at : Option Int
deriving DecidableEq

/-- A row of the `session` table, restricted to the fields the playback
engine reads and writes. -/
structure SessionRow where
  room_id : String
  current_song_id : Option String
  current_song_start : Option Int
  paused_position_ms : Int
deriving DecidableEq

/-- One entry of `PlaybackManager.session_playback_state` (the dict built at
`start_playback` lines 65-72). -/
structure Snapshot where
  session_song_id : String
  song : Song
  started_at : Int
  position_ms : Int
  end_time : Int
  is_playing : Bool
deriving DecidableEq

/-- One `asyncio.Task` created by `start_playback` line 86 to run
`_auto_play_next(session_id, session_song_id, remaining_duration)`.
`tid` is a unique identifier; `cancelled` is set by `task.cancel()`. -/
structure Timer where
  tid : Nat
  session_id : String
  session_song_id : String
  duration_ms : Int
  cancelled : Bool
deriving DecidableEq

/-- The `current_track` dict embedded in playback results and broadcasts. -/
structure TrackInfo where
  id : String
  title : String
  artist : String
  album : Option String
  album_art_url : String
  duration_ms : Int
  spotify_id : String
  spotify_uri : String
deriving DecidableEq

/-- The canonical state dict returned by the playback operations:
`{is_playing, current_track, position_ms, playback_started_at}` plus the
optional `"message"` key that the empty-queue branches add. -/
structure PlaybackResult where
  is_playing : Bool
  current_track : Option TrackInfo
  position_ms : Int
  playback_started_at : Option Int
  message : Option String
deriving DecidableEq

/-- Payload descriptor for `websocket_manager.broadcast_to_room` calls made
by the playback manager (only the structure the claims inspect is kept). -/
inductive WsMsg where
  | playbackState (data : PlaybackResult)
  | queueUpdate
  | notification
deriving DecidableEq

/-- The complete mutable state the playback engine can reach: the manager's
two in-memory maps (`session_tasks`, `session_playback_state`), the timer
trace, and the durable stores behind `SupabaseService`.  `dbWriteOk` models
whether `update_session_playback_state` writes succeed or raise.
`broadcasts` logs the `broadcast_to_room` calls in order. -/
structure World where
  sessions : String → Option SessionRow
  songs : String → Option Song
  queue : List QueueEntry
  dbWriteOk : Bool
  session_tasks : String → Option Nat
  timers : List Timer
  nextTid : Nat
  snapshots : String → Option Snapshot
  broadcasts : List (String × WsMsg)

/-- Model of `SupabaseService.get_session_queue`: all unplayed entries of the
session, in ascending position order. -/
def get_session_queue (w : World) (sid : String) : List QueueEntry :=
  w.queue.filter (fun e => e.session_id == sid && !e.played)

/-- Model of `SupabaseService.get_next_session_song`: first unplayed entry of the
session by position (`.limit(1)`). -/
def get_next_session_song (w : World) (sid : String) : List QueueEntry :=
  (get_session_queue w sid).take 1

/-- Model of `SupabaseService.get_session_song_by_id`: the `.data` list of the
lookup by primary key. -/
def get_session_song_by_id (w : World) (ssid : String) : List QueueEntry :=
  w.queue.filter (fun e => e.id == ssid)

/-- Model of `SupabaseService.mark_session_song_played`: sets `played` and
`played_at` on the matching row. -/
def mark_session_song_played (now : Int) (w : World) (ssid : String) : World :=
  { w with queue := w.queue.map (fun e =>
      if e.id == ssid then { e with played := true, played_at := some now } else e) }

/-- Field-wise application of the kwargs of
`SupabaseService.update_session_playback_state`: a field is written only
when explicitly provided (outer `Option`), and may be set to null (inner
`Option`). -/
def applyUpd (csi : Option (Option String)) (css : Option (Option Int))
    (ppm : Option Int) (row : SessionRow) : SessionRow :=
  { row with
    current_song_id := csi.getD row.current_song_id,
    current_song_start := css.getD row.current_song_start,
    paused_position_ms := ppm.getD row.paused_position_ms }

/-- Model of `SupabaseService.update_session_playback_state`: an `update ... eq(id)`
that is a no-op when no row matches, and that raises (modelled by
`dbWriteOk = false`) on a store failure, leaving the store unchanged. -/
def update_session_playback_state (w : World) (sid : String)
    (csi : Option (Option String)) (css : Option (Option Int)) (ppm : Option Int) :
    World × Except String Unit :=
  if w.dbWriteOk then
    ({ w with sessions := fun s =>
        if s = sid then (w.sessions s).map (applyUpd csi css ppm) else w.sessions s },
     .ok ())
  else (w, .error "Database write failed")

/-- Appending a `broadcast_to_room(room_id, message)` call to the log. -/
def pushBroadcast (w : World) (room : String) (m : WsMsg) : World :=
  { w with broadcasts := w.broadcasts ++ [(room, m)] }

/-- The `Song` fields flattened into the `current_track` dict
(`start_playback` lines 102-111 and `get_playback_state` lines 301-310). -/
def trackOf (s : Song) : TrackInfo :=
  { id := s.id, title := s.title, artist := s.artist, album := s.album,
    album_art_url := s.album_art_url, duration_ms := s.duration_ms,
    spotify_id := s.spotify_id, spotify_uri := s.spotify_uri }

/-- The empty-playback dict `{is_playing: False, current_track: None,
position_ms: 0, playback_started_at: None}`. -/
def emptyStateResult : PlaybackResult :=
  { is_playing := false, current_track := none, position_ms := 0,
    playback_started_at := none, message := none }

/-- The empty-playback dict with the extra `"message": "Queue is empty"`
key (`start_playback` lines 43-49 and `_play_next_song` lines 553-559). -/
def emptyQueueResult : PlaybackResult :=
  { emptyStateResult with message := some "Queue is empty" }

/-- The dict returned (and broadcast) by a successful `start_playback`
(lines 118-132). -/
def startResult (song : Song) (position_ms : Int) (now : Int) : PlaybackResult :=
  { is_playing := true, current_track := some (trackOf song),
    position_ms := position_ms, playback_started_at := some now, message := none }

/-- Model of `PlaybackManager._cancel_session_task` (lines 561-569): if a task is
registered for the session, `cancel()` it, `await` it to completion, and
drop it from `session_tasks`.  The await is the caller's synchronization
point; in this sequential embedding it completes atomically by flagging
the timer `cancelled`. -/
def _cancel_session_task (w : World) (sid : String) : World :=
  match w.session_tasks sid with
  | none => w
  | some tid =>
    { w with
      timers := w.timers.map (fun t =>
        if t.tid == tid then { t with cancelled := true } else t),
      session_tasks := fun s => if s = sid then none else w.session_tasks s }

/-- Model of `start_playback` lines 60-132, after the session song has been resolved
to the queue entry `e` (so `session_song_id = e.id`, `song = e.song`):
store the snapshot, persist, cancel the previous task, arm the new
auto-play task for `remaining_duration`, look the session up for its
`room_id`, broadcast, and return the state dict. -/
def start_resolved (now : Int) (sid : String) (e : QueueEntry) (pos : Int)
    (w : World) : World × Except String PlaybackResult :=
  let song := e.song
  let remaining := song.duration_ms - pos
  let snap : Snapshot :=
    { session_song_id := e.id, song := song, started_at := now,
      position_ms := pos, end_time := now + remaining, is_playing := true }
  let w := { w with snapshots := fun s => if s = sid then some snap else w.snapshots s }
  match update_session_playback_state w sid (some (some song.id)) (some (some now)) (some 0) with
  | (w, .error err) => (w, .error err)
  | (w, .ok _) =>
    let w := _cancel_session_task w sid
    let newT : Timer :=
      { tid := w.nextTid, session_id := sid, session_song_id := e.id,
        duration_ms := remaining, cancelled := false }
    let w := { w with
      timers := w.timers ++ [newT],
      nextTid := w.nextTid + 1,
      session_tasks := fun s => if s = sid then some newT.tid else w.session_tasks s }
    match w.sessions sid with
    | none => (w, .error "Session not found")
    | some row =>
      let res := startResult song pos now
      let w := pushBroadcast w row.room_id (.playbackState res)
      (w, .ok res)

/-- Model of `PlaybackManager.start_playback` (lines 20-132).  With no
`session_song_id` it pulls the next unplayed queue entry; an empty queue
clears the durable playback fields and returns the empty result without
touching tasks or snapshots.  With an explicit id, a failed lookup raises
`"Session song not found"`. -/
def start_playback (now : Int) (sid : String) (ssid? : Option String) (pos : Int)
    (w : World) : World × Except String PlaybackResult :=
  match ssid? with
  | none =>
    match get_next_session_song w sid with
    | [] =>
      match update_session_playback_state w sid (some none) (some none) (some 0) with
      | (w, .error err) => (w, .error err)
      | (w, .ok _) => (w, .ok emptyQueueResult)
    | e :: _ => start_resolved now sid e pos w
  | some ssid =>
    match get_session_song_by_id w ssid with
    | [] => (w, .error "Session song not found")
    | e :: _ => start_resolved now sid e pos w

/-- The 4-key state dict flowing into the common tail of
`get_playback_state` (either the in-memory snapshot or the dict rebuilt
from the durable row at lines 284-289; both always carry a song and a
start instant). -/
structure StateView where
  song : Song
  started_at : Int
  position_ms : Int
  is_playing : Bool
deriving DecidableEq

/-- Viewing an in-memory snapshot as the common state dict. -/
def Snapshot.view (st : Snapshot) : StateView :=
  { song := st.song, started_at := st.started_at,
    position_ms := st.position_ms, is_playing := st.is_playing }

/-- Model of `get_playback_state` lines 291-317: the position is
`position_ms + (now - started_at)` while playing — the code applies no
clamp to the track duration here — and the stored `position_ms` otherwise. -/
def render (now : Int) (st : StateView) : PlaybackResult :=
  { is_playing := st.is_playing,
    current_track := some (trackOf st.song),
    position_ms := if st.is_playing then st.position_ms + (now - st.started_at)
                   else st.position_ms,
    playback_started_at := some st.started_at,
    message := none }

/-- Model of `PlaybackManager.get_playback_state` (lines 248-317): side-effect free;
uses the in-memory snapshot when present, otherwise reconstructs from the
durable row (empty result when not playing, no current song, or the song
row is missing). -/
def get_playback_state (now : Int) (sid : String) (w : World) :
    Except String PlaybackResult :=
  match w.snapshots sid with
  | some st => .ok (render now st.view)
  | none =>
    match w.sessions sid with
    | none => .error "Session not found"
    | some row =>
      match row.current_song_start, row.current_song_id with
      | some started, some cid =>
        match w.songs cid with
        | none => .ok emptyStateResult
        | some song =>
          .ok (render now
            { song := song, started_at := started,
              position_ms := row.paused_position_ms, is_playing := true })
      | some _, none => .ok emptyStateResult
      | none, _ => .ok emptyStateResult

/-- Model of `pause_playback` lines 153-182, once the current position has been
computed: freeze the in-memory snapshot, persist
`{current_song_start: null, paused_position_ms: position}`, cancel the
task, recompute the state, and broadcast it. -/
def pause_tail (now : Int) (sid : String) (current_position : Int) (w : World) :
    World × Except String PlaybackResult :=
  let w :=
    match w.snapshots sid with
    | some st =>
      { w with snapshots := fun s =>
          if s = sid then some { st with is_playing := false, position_ms := current_position }
          else w.snapshots s }
    | none => w
  match update_session_playback_state w sid none (some none) (some current_position) with
  | (w, .error err) => (w, .error err)
  | (w, .ok _) =>
    let w := _cancel_session_task w sid
    match get_playback_state now sid w with
    | .error err => (w, .error err)
    | .ok playback_state =>
      match w.sessions sid with
      | none => (w, .error "Session not found")
      | some row =>
        let w := pushBroadcast w row.room_id (.playbackState playback_state)
        (w, .ok playback_state)

/-- Model of `PlaybackManager.pause_playback` (lines 134-182): computes the current
position (clamped to the song duration when that is non-zero — Python
truthiness of `duration_ms`; read from the durable row when there is no
playing in-memory snapshot), then runs `pause_tail`. -/
def pause_playback (now : Int) (sid : String) (w : World) :
    World × Except String PlaybackResult :=
  let fromDb : Except String Int :=
    match w.sessions sid with
    | none => .error "Session not found"
    | some row => .ok row.paused_position_ms
  let pos? : Except String Int :=
    match w.snapshots sid with
    | some st =>
      if st.is_playing then
        let elapsed := now - st.started_at
        let cp := st.position_ms + elapsed
        .ok (if st.song.duration_ms != 0 then min cp st.song.duration_ms else cp)
      else fromDb
    | none => fromDb
  match pos? with
  | .error err => (w, .error err)
  | .ok current_position => pause_tail now sid current_position w

/-- Model of `PlaybackManager.resume_playback` (lines 184-221): idempotent guard on a
non-null `current_song_start`; otherwise finds the current song's queue
entry and delegates to `start_playback` at the paused position. -/
def resume_playback (now : Int) (sid : String) (w : World) :
    World × Except String PlaybackResult :=
  match w.sessions sid with
  | none => (w, .error "Session not found")
  | some row =>
    if row.current_song_start.isSome then
      (w, get_playback_state now sid w)
    else
      match row.current_song_id with
      | none => start_playback now sid none 0 w
      | some cid =>
        match (get_session_queue w sid).find? (fun e => e.song.id == cid) with
        | none => start_playback now sid none 0 w
        | some e => start_playback now sid (some e.id) row.paused_position_ms w

/-- Model of `PlaybackManager._play_next_song` (lines 409-559): pull the next
unplayed entry; if found, start it at position 0 and broadcast a queue
update; otherwise clear the durable fields, delete the in-memory snapshot,
and broadcast empty state, empty queue, and a notification, in that order. -/
def _play_next_song (now : Int) (sid : String) (w : World) :
    World × Except String PlaybackResult :=
  let next := get_next_session_song w sid
  match w.sessions sid with
  | none => (w, .error "Session not found")
  | some row =>
    let room := row.room_id
    match next with
    | e :: _ =>
      match start_playback now sid (some e.id) 0 w with
      | (w, .error err) => (w, .error err)
      | (w, .ok r) =>
        let w := pushBroadcast w room .queueUpdate
        (w, .ok r)
    | [] =>
      match update_session_playback_state w sid (some none) (some none) (some 0) with
      | (w, .error err) => (w, .error err)
      | (w, .ok _) =>
        let w := { w with snapshots := fun s => if s = sid then none else w.snapshots s }
        let w := pushBroadcast w room (.playbackState emptyStateResult)
        let w := pushBroadcast w room .queueUpdate
        let w := pushBroadcast w room .notification
        (w, .ok emptyQueueResult)

/-- Model of `PlaybackManager.skip_to_next` (lines 223-246): mark the current entry
played (found via the snapshot, else via the durable row and the queue),
cancel the task, and run the play-next path. -/
def skip_to_next (now : Int) (sid : String) (w : World) :
    World × Except String PlaybackResult :=
  let w :=
    match w.snapshots sid with
    | some st => mark_session_song_played now w st.session_song_id
    | none =>
      match w.sessions sid with
      | some row =>
        match row.current_song_id with
        | some cid =>
          match (get_session_queue w sid).find? (fun e => e.song.id == cid) with
          | some e => mark_session_song_played now w e.id
          | none => w
        | none => w
      | none => w
  let w := _cancel_session_task w sid
  _play_next_song now sid w

/-- Model of `PlaybackManager.restore_from_database` (lines 334-374): on restart,
for a session with a non-null `current_song_start`, recompute the elapsed
position; if the current entry is missing from the unplayed queue or the
elapsed position has reached the song's duration, run the play-next path,
else re-start the current entry at the elapsed offset. -/
def restore_from_database (now : Int) (sid : String) (w : World) :
    World × Except String Unit :=
  match w.sessions sid with
  | none => (w, .ok ())
  | some row =>
    match row.current_song_start with
    | none => (w, .ok ())
    | some started_at =>
      match row.current_song_id.bind w.songs with
      | none => (w, .ok ())
      | some song =>
        let current_position := now - started_at
        match (get_session_queue w sid).find?
            (fun e => some e.song.id == row.current_song_id) with
        | none =>
          match _play_next_song now sid w with
          | (w, .error err) => (w, .error err)
          | (w, .ok _) => (w, .ok ())
        | some e =>
          if current_position ≥ song.duration_ms then
            match _play_next_song now sid w with
            | (w, .error err) => (w, .error err)
            | (w, .ok _) => (w, .ok ())
          else
            match start_playback now sid (some e.id) current_position w with
            | (w, .error err) => (w, .error err)
            | (w, .ok _) => (w, .ok ())

/-- The timers of a session that can still fire: a cancelled asyncio task
never resumes past its `await asyncio.sleep`, so exactly the
non-cancelled timers are live. -/
def liveTimers (w : World) (sid : String) : List Timer :=
  w.timers.filter (fun t => t.session_id == sid && !t.cancelled)

/-- Well-formedness of the timer trace that `PlaybackManager` maintains:
timer ids are distinct and below the allocation counter, and every live
timer is the one registered in `session_tasks` for its session. -/
def GoodTimers (w : World) : Prop :=
  (w.timers.map Timer.tid).Nodup ∧
  (∀ t ∈ w.timers, t.tid < w.nextTid) ∧
  (∀ t ∈ w.timers, t.cancelled = false → w.session_tasks t.session_id = some t.tid)

instance (w : World) : Decidable (GoodTimers w) := by
  unfold GoodTimers; infer_instance

/-! ### Frame lemmas for `_cancel_session_task` -/

theorem cancel_sessions (w : World) (sid : String) :
    (_cancel_session_task w sid).sessions = w.sessions := by
  unfold _cancel_session_task
  cases w.session_tasks sid <;> rfl

theorem cancel_songs (w : World) (sid : String) :
    (_cancel_session_task w sid).songs = w.songs := by
  unfold _cancel_session_task
  cases w.session_tasks sid <;> rfl

theorem cancel_queue (w : World) (sid : String) :
    (_cancel_session_task w sid).queue = w.queue := by
  unfold _cancel_session_task
  cases w.session_tasks sid <;> rfl

theorem cancel_dbWriteOk (w : World) (sid : String) :
    (_cancel_session_task w sid).dbWriteOk = w.dbWriteOk := by
  unfold _cancel_session_task
  cases w.session_tasks sid <;> rfl

theorem cancel_snapshots (w : World) (sid : String) :
    (_cancel_session_task w sid).snapshots = w.snapshots := by
  unfold _cancel_session_task
  cases w.session_tasks sid <;> rfl

theorem cancel_broadcasts (w : World) (sid : String) :
    (_cancel_session_task w sid).broadcasts = w.broadcasts := by
  unfold _cancel_session_task
  cases w.session_tasks sid <;> rfl

theorem cancel_nextTid (w : World) (sid : String) :
    (_cancel_session_task w sid).nextTid = w.nextTid := by
  unfold _cancel_session_task
  cases w.session_tasks sid <;> rfl

theorem cancel_task_self (w : World) (sid : String) :
    (_cancel_session_task w sid).session_tasks sid = none := by
  unfold _cancel_session_task
  cases h : w.session_tasks sid with
  | none => exact h
  | some tid => simp

theorem cancel_task_other (w : World) (sid s : String) (hs : s ≠ sid) :
    (_cancel_session_task w sid).session_tasks s = w.session_tasks s := by
  unfold _cancel_session_task
  cases h : w.session_tasks sid with
  | none => rfl
  | some tid => simp [hs]

theorem cancel_timers_tid_map (w : World) (sid : String) :
    (_cancel_session_task w sid).timers.map Timer.tid = w.timers.map Timer.tid := by
  unfold _cancel_session_task
  cases h : w.session_tasks sid with
  | none => rfl
  | some tid =>
    simp only [List.map_map]
    refine List.map_congr_left ?_
    intro t _
    simp only [Function.comp_apply]
    split <;> rfl

/-! ### Concrete worlds used as proof witnesses and counterexamples -/

/-- A 3000 ms track. -/
def songA : Song :=
  { id := "TA", title := "Alpha", artist := "A", album := none,
    album_art_url := "ua", duration_ms := 3000, spotify_id := "spA", spotify_uri := "urA" }

/-- A 5000 ms track. -/
def songB : Song :=
  { id := "TB", title := "Beta", artist := "B", album := none,
    album_art_url := "ub", duration_ms := 5000, spotify_id := "spB", spotify_uri := "urB" }

/-- First unplayed queue entry of session `"s"`. -/
def entryA : QueueEntry :=
  { id := "e1", session_id := "s", song := songA, position := 0,
    played := false, played_at := none }

/-- Second unplayed queue entry of session `"s"`. -/
def entryB : QueueEntry :=
  { id := "e2", session_id := "s", song := songB, position := 1,
    played := false, played_at := none }

/-- Durable row of session `"s"` while stopped. -/
def rowS : SessionRow :=
  { room_id := "r", current_song_id := none, current_song_start := none,
    paused_position_ms := 0 }

/-- A quiescent world: session `"s"` in room `"r"`, two unplayed queued
tracks, no snapshot, no timer. -/
def baseW : World :=
  { sessions := fun s => if s = "s" then some rowS else none,
    songs := fun c => if c = "TA" then some songA else if c = "TB" then some songB else none,
    queue := [entryA, entryB],
    dbWriteOk := true,
    session_tasks := fun _ => none,
    timers := [],
    nextTid := 0,
    snapshots := fun _ => none,
    broadcasts := [] }

/-- A playing in-memory snapshot of track `songA` anchored at time 0,
position 0. -/
def snapA : Snapshot :=
  { session_song_id := "e1", song := songA, started_at := 0, position_ms := 0,
    end_time := 3000, is_playing := true }

/-- The world `baseW` with session `"s"` playing `songA` in memory. -/
def playingW : World :=
  { baseW with snapshots := fun s => if s = "s" then some snapA else none }

/-! ### C2: the reported position -/

/-- C2 counterexample: with the in-memory snapshot `snapA` (track duration
3000 ms, anchored at time 0, position 0) and query time 5000,
`get_playback_state` reports position 5000 — not
`min(duration_ms, position_at_anchor + (now - anchor)) = 3000` — so the
reported position exceeds the track's `duration_ms`, refuting the claim
that `getState` clamps while playing. -/
theorem getState_clamp_counterexample :
    (get_playback_state 5000 "s" playingW).map PlaybackResult.position_ms = .ok 5000 ∧
    (get_playback_state 5000 "s" playingW).map PlaybackResult.position_ms ≠
      .ok (min snapA.song.duration_ms (snapA.position_ms + (5000 - snapA.started_at))) ∧
    snapA.song.duration_ms = 3000 ∧ snapA.is_playing = true := by
  decide

/-- C2 (amended): for every in-memory snapshot and query time `now`,
`get_playback_state` reports the stored position when `is_playing` is
false, and `position_at_anchor + (now - anchor)` — with no clamp to
`duration_ms` — when `is_playing` is true. -/
theorem getState_position_unclamped (w : World) (sid : String) (st : Snapshot) (now : Int)
    (h : w.snapshots sid = some st) :
    (get_playback_state now sid w).map PlaybackResult.position_ms =
      .ok (if st.is_playing then st.position_ms + (now - st.started_at) else st.position_ms) := by
  simp [get_playback_state, h, render, Snapshot.view, Except.map]

/-- Witness for `getState_position_unclamped` at the concrete world
`playingW`, snapshot `snapA`, query time 700. -/
theorem getState_position_unclamped_witness :
    playingW.snapshots "s" = some snapA ∧
    (get_playback_state 700 "s" playingW).map PlaybackResult.position_ms =
      .ok (if snapA.is_playing then snapA.position_ms + (700 - snapA.started_at)
           else snapA.position_ms) :=
  ⟨by decide, getState_position_unclamped playingW "s" snapA 700 (by decide)⟩

/-! ### C3: monotonicity of the reported position -/

/-- C3: for a fixed world, the position `get_playback_state` reports is
monotone non-decreasing in the query time while the state is playing, and
constant while it is not. -/
theorem getState_monotone (w : World) (sid : String) (now₁ now₂ : Int)
    (r₁ r₂ : PlaybackResult)
    (h₁ : get_playback_state now₁ sid w = .ok r₁)
    (h₂ : get_playback_state now₂ sid w = .ok r₂)
    (hle : now₁ ≤ now₂) :
    (r₁.is_playing = true → r₁.position_ms ≤ r₂.position_ms) ∧
    (r₁.is_playing = false → r₁.position_ms = r₂.position_ms) := by
  unfold get_playback_state at h₁ h₂
  cases hs : w.snapshots sid with
  | some st =>
    simp only [hs, Except.ok.injEq] at h₁ h₂
    subst h₁; subst h₂
    cases hp : st.is_playing
    · simp [render, Snapshot.view, hp]
    · simp [render, Snapshot.view, hp]
      omega
  | none =>
    simp only [hs] at h₁ h₂
    cases hrow : w.sessions sid with
    | none => simp [hrow] at h₁
    | some row =>
      simp only [hrow] at h₁ h₂
      cases hcs : row.current_song_start with
      | none =>
        simp only [hcs, Except.ok.injEq] at h₁ h₂
        subst h₁; subst h₂
        simp [emptyStateResult]
      | some started =>
        cases hcid : row.current_song_id with
        | none =>
          simp only [hcs, hcid, Except.ok.injEq] at h₁ h₂
          subst h₁; subst h₂
          simp [emptyStateResult]
        | some cid =>
          simp only [hcs, hcid] at h₁ h₂
          cases hsong : w.songs cid with
          | none =>
            simp only [hsong, Except.ok.injEq] at h₁ h₂
            subst h₁; subst h₂
            simp [emptyStateResult]
          | some song =>
            simp only [hsong, Except.ok.injEq] at h₁ h₂
            subst h₁; subst h₂
            refine ⟨fun _ => ?_, fun hfalse => ?_⟩
            · simp [render]
              omega
            · simp [render] at hfalse

/-- The state reported for `playingW` at query time 1000. -/
def reportAt1000 : PlaybackResult := render 1000 snapA.view

/-- The state reported for `playingW` at query time 2000. -/
def reportAt2000 : PlaybackResult := render 2000 snapA.view

/-- Witness for `getState_monotone` on `playingW` at query times
1000 ≤ 2000. -/
theorem getState_monotone_witness :
    (reportAt1000.is_playing = true → reportAt1000.position_ms ≤ reportAt2000.position_ms) ∧
    (reportAt1000.is_playing = false → reportAt1000.position_ms = reportAt2000.position_ms) :=
  getState_monotone playingW "s" 1000 2000 reportAt1000 reportAt2000
    (by decide) (by decide) (by decide)

/-! ### C7: start on an empty queue -/

/-- C7: calling `start_playback` with no session song when the queue has no
unplayed entry clears the current-track fields of the durable session row,
returns the empty-playback result (with the `"Queue is empty"` message),
and arms no timer: `timers` and `session_tasks` are untouched. -/
theorem start_empty_queue_stops (now pos : Int) (sid : String) (w : World) (row : SessionRow)
    (hq : get_next_session_song w sid = [])
    (hdb : w.dbWriteOk = true)
    (hrow : w.sessions sid = some row) :
    (start_playback now sid none pos w).2 = .ok emptyQueueResult ∧
    (start_playback now sid none pos w).1.sessions sid =
      some { row with current_song_id := none, current_song_start := none,
                      paused_position_ms := 0 } ∧
    (start_playback now sid none pos w).1.timers = w.timers ∧
    (start_playback now sid none pos w).1.session_tasks = w.session_tasks := by
  simp [start_playback, hq, update_session_playback_state, hdb, applyUpd, hrow]

/-- Witness for `start_empty_queue_stops`: a world whose queue holds only a
played entry in another session. -/
def emptyQueueW : World :=
  { baseW with queue := [{ entryA with played := true, played_at := some 10 }] }

/-- Witness for `start_empty_queue_stops` at `emptyQueueW`. -/
theorem start_empty_queue_stops_witness :
    (start_playback 500 "s" none 0 emptyQueueW).2 = .ok emptyQueueResult ∧
    (start_playback 500 "s" none 0 emptyQueueW).1.sessions "s" =
      some { rowS with current_song_id := none, current_song_start := none,
                       paused_position_ms := 0 } ∧
    (start_playback 500 "s" none 0 emptyQueueW).1.timers = emptyQueueW.timers ∧
    (start_playback 500 "s" none 0 emptyQueueW).1.session_tasks = emptyQueueW.session_tasks :=
  start_empty_queue_stops 500 0 "s" emptyQueueW rowS (by decide) (by decide) (by decide)

/-! ### C10: frame of start on an empty queue -/

/-- C10: the empty-queue branch of `start_playback` leaves `session_tasks`,
`timers` and `session_playback_state` exactly as they were (no timer is
cancelled or replaced, no snapshot is removed), whereas the empty-queue
branch of `_play_next_song` deletes the session's snapshot. -/
theorem start_empty_queue_frame (now : Int) (sid : String) (w : World) :
    (get_next_session_song w sid = [] →
      (start_playback now sid none 0 w).1.session_tasks = w.session_tasks ∧
      (start_playback now sid none 0 w).1.timers = w.timers ∧
      (start_playback now sid none 0 w).1.snapshots = w.snapshots) ∧
    (∀ row, get_next_session_song w sid = [] → w.dbWriteOk = true →
      w.sessions sid = some row →
      (_play_next_song now sid w).1.snapshots sid = none) := by
  constructor
  · intro hq
    unfold start_playback update_session_playback_state
    cases hdb : w.dbWriteOk <;> simp [hq, hdb]
  · intro row hq hdb hrow
    simp [_play_next_song, hq, hrow, update_session_playback_state, hdb, pushBroadcast]

/-- The world `playingW` with an armed timer for session `"s"` (timer 0 live and
registered), as left by a previous `start_playback`. -/
def armedW : World :=
  { playingW with
    session_tasks := fun s => if s = "s" then some 0 else none,
    timers := [{ tid := 0, session_id := "s", session_song_id := "e1",
                 duration_ms := 3000, cancelled := false }],
    nextTid := 1 }

/-- The world `armedW` with every queue entry already played. -/
def armedEmptyQueueW : World :=
  { armedW with queue := [{ entryA with played := true, played_at := some 10 }] }

/-- Witness for `start_empty_queue_frame` at `armedEmptyQueueW`: the armed
timer, the task registration and the snapshot survive the empty-queue
start, while `_play_next_song` on the same world deletes the snapshot. -/
theorem start_empty_queue_frame_witness :
    ((start_playback 500 "s" none 0 armedEmptyQueueW).1.session_tasks =
        armedEmptyQueueW.session_tasks ∧
      (start_playback 500 "s" none 0 armedEmptyQueueW).1.timers = armedEmptyQueueW.timers ∧
      (start_playback 500 "s" none 0 armedEmptyQueueW).1.snapshots =
        armedEmptyQueueW.snapshots) ∧
    (_play_next_song 500 "s" armedEmptyQueueW).1.snapshots "s" = none :=
  ⟨(start_empty_queue_frame 500 "s" armedEmptyQueueW).1 (by decide),
   (start_empty_queue_frame 500 "s" armedEmptyQueueW).2 rowS (by decide) (by decide) (by decide)⟩

/-! ### Execution characterization of a successful `start_resolved` -/

/-- The effect of `_cancel_session_task` on the timer trace, as a pure
function of the trace and the registered task id. -/
def cancelTimers (timers : List Timer) (reg : Option Nat) : List Timer :=
  match reg with
  | none => timers
  | some tid => timers.map (fun t => if t.tid == tid then { t with cancelled := true } else t)

theorem cancel_eq (w : World) (sid : String) :
    _cancel_session_task w sid =
      { w with timers := cancelTimers w.timers (w.session_tasks sid),
               session_tasks := fun s => if s = sid then none else w.session_tasks s } := by
  unfold _cancel_session_task cancelTimers
  cases h : w.session_tasks sid with
  | none =>
    have hfun : (fun s => if s = sid then none else w.session_tasks s) = w.session_tasks := by
      funext s
      split
      · next heq => rw [heq, h]
      · rfl
    rw [hfun]
  | some tid => rfl

/-- The snapshot stored by `start_playback` for queue entry `e` started at
`pos` at instant `now`. -/
def startSnap (now : Int) (e : QueueEntry) (pos : Int) : Snapshot :=
  { session_song_id := e.id, song := e.song, started_at := now,
    position_ms := pos, end_time := now + (e.song.duration_ms - pos), is_playing := true }

/-- The timer armed by `start_playback` for queue entry `e` started at
`pos` in world `w`. -/
def armedTimer (w : World) (sid : String) (e : QueueEntry) (pos : Int) : Timer :=
  { tid := w.nextTid, session_id := sid, session_song_id := e.id,
    duration_ms := e.song.duration_ms - pos, cancelled := false }

/-- Full characterization of `start_resolved` when the durable write
succeeds and the session row exists. -/
theorem start_resolved_spec (now pos : Int) (sid : String) (e : QueueEntry)
    (w : World) (row : SessionRow)
    (hdb : w.dbWriteOk = true) (hrow : w.sessions sid = some row) :
    (start_resolved now sid e pos w).2 = .ok (startResult e.song pos now) ∧
    (start_resolved now sid e pos w).1.timers =
      cancelTimers w.timers (w.session_tasks sid) ++ [armedTimer w sid e pos] ∧
    (start_resolved now sid e pos w).1.nextTid = w.nextTid + 1 ∧
    (start_resolved now sid e pos w).1.session_tasks sid = some w.nextTid ∧
    (∀ s, s ≠ sid → (start_resolved now sid e pos w).1.session_tasks s = w.session_tasks s) ∧
    (start_resolved now sid e pos w).1.snapshots sid = some (startSnap now e pos) ∧
    (∀ s, s ≠ sid → (start_resolved now sid e pos w).1.snapshots s = w.snapshots s) ∧
    (start_resolved now sid e pos w).1.sessions sid =
      some (applyUpd (some (some e.song.id)) (some (some now)) (some 0) row) ∧
    (∀ s, s ≠ sid → (start_resolved now sid e pos w).1.sessions s = w.sessions s) ∧
    (start_resolved now sid e pos w).1.queue = w.queue ∧
    (start_resolved now sid e pos w).1.dbWriteOk = w.dbWriteOk ∧
    (start_resolved now sid e pos w).1.songs = w.songs := by
  unfold start_resolved update_session_playback_state
  simp only [hdb, if_true]
  rw [cancel_eq]
  simp [hrow, pushBroadcast, startSnap, armedTimer]
  refine ⟨fun s hs => ?_, fun s hs heq => absurd heq hs, fun s hs heq => absurd heq hs⟩
  simp [hs]

theorem cancelTimers_tid_lt (timers : List Timer) (reg : Option Nat) (n : Nat)
    (h : ∀ t ∈ timers, t.tid < n) : ∀ t ∈ cancelTimers timers reg, t.tid < n := by
  unfold cancelTimers
  cases reg with
  | none => exact h
  | some tid =>
    intro t ht
    rcases List.mem_map.1 ht with ⟨t₀, ht₀, rfl⟩
    split <;> exact h t₀ ht₀

theorem filter_new_timer (l : List Timer) (n : Nat) (T : Timer)
    (hT : T.tid = n) (h : ∀ t ∈ l, t.tid < n) :
    (l ++ [T]).filter (fun t => t.tid == n) = [T] := by
  rw [List.filter_append]
  have h1 : l.filter (fun t => t.tid == n) = [] := by
    rw [List.filter_eq_nil_iff]
    intro t ht
    simp [Nat.ne_of_lt (h t ht)]
  simp [h1, hT]

/-! ### C6: the timer is armed for the remaining duration -/

/-- C6: every `start_playback` that begins playback of a track — whether
the track was given explicitly or pulled from the queue — registers a new
task for the session and arms its timer for exactly
`duration_ms - position_ms`, the remaining playback time, not the full
track duration. -/
theorem timer_armed_for_remaining
    (now pos : Int) (sid : String) (w : World) (row : SessionRow)
    (hdb : w.dbWriteOk = true)
    (hrow : w.sessions sid = some row)
    (htid : ∀ t ∈ w.timers, t.tid < w.nextTid) :
    (∀ ssid e es, get_session_song_by_id w ssid = e :: es →
      (start_playback now sid (some ssid) pos w).1.session_tasks sid = some w.nextTid ∧
      (start_playback now sid (some ssid) pos w).1.timers.filter
          (fun t => t.tid == w.nextTid) = [armedTimer w sid e pos] ∧
      (armedTimer w sid e pos).duration_ms = e.song.duration_ms - pos) ∧
    (∀ e es, get_next_session_song w sid = e :: es →
      (start_playback now sid none pos w).1.session_tasks sid = some w.nextTid ∧
      (start_playback now sid none pos w).1.timers.filter
          (fun t => t.tid == w.nextTid) = [armedTimer w sid e pos] ∧
      (armedTimer w sid e pos).duration_ms = e.song.duration_ms - pos) := by
  constructor
  · intro ssid e es hById
    simp only [start_playback, hById]
    obtain ⟨_, htimers, _, htasks, _⟩ := start_resolved_spec now pos sid e w row hdb hrow
    refine ⟨htasks, ?_, rfl⟩
    rw [htimers]
    exact filter_new_timer _ _ _ rfl (cancelTimers_tid_lt _ _ _ htid)
  · intro e es hq
    simp only [start_playback, hq]
    obtain ⟨_, htimers, _, htasks, _⟩ := start_resolved_spec now pos sid e w row hdb hrow
    refine ⟨htasks, ?_, rfl⟩
    rw [htimers]
    exact filter_new_timer _ _ _ rfl (cancelTimers_tid_lt _ _ _ htid)

/-- Witness for `timer_armed_for_remaining`: starting entry `"e2"`
(5000 ms track) at offset 1200 in `baseW` arms a 3800 ms timer; pulling
from the queue arms entry `"e1"` for its full 3000 ms from offset 0. -/
theorem timer_armed_for_remaining_witness :
    ((start_playback 100 "s" (some "e2") 1200 baseW).1.session_tasks "s" =
        some baseW.nextTid ∧
      (start_playback 100 "s" (some "e2") 1200 baseW).1.timers.filter
          (fun t => t.tid == baseW.nextTid) = [armedTimer baseW "s" entryB 1200] ∧
      (armedTimer baseW "s" entryB 1200).duration_ms = entryB.song.duration_ms - 1200) ∧
    ((start_playback 100 "s" none 0 baseW).1.session_tasks "s" = some baseW.nextTid ∧
      (start_playback 100 "s" none 0 baseW).1.timers.filter
          (fun t => t.tid == baseW.nextTid) = [armedTimer baseW "s" entryA 0] ∧
      (armedTimer baseW "s" entryA 0).duration_ms = entryA.song.duration_ms - 0) :=
  ⟨(timer_armed_for_remaining 100 1200 "s" baseW rowS (by decide) (by decide)
      (by decide)).1 "e2" entryB [] (by decide),
   (timer_armed_for_remaining 100 0 "s" baseW rowS (by decide) (by decide)
      (by decide)).2 entryA [] (by decide)⟩

/-! ### C4: resume restarts at the paused position -/

/-- C4: `resume_playback` with a non-null durable `current_song_start`
returns the current state and leaves the world unchanged; with a null one
it delegates to `start_playback` of the current track's queue entry at
exactly the paused position, so the reported position is the paused
position and, after playing `t` further milliseconds, the paused position
plus `t` — independent of how long the session sat paused. -/
theorem resume_preserves_position
    (now t : Int) (sid cid : String) (w : World) (row : SessionRow)
    (e e' : QueueEntry) (es : List QueueEntry)
    (hrow : w.sessions sid = some row) :
    (∀ a, row.current_song_start = some a →
      resume_playback now sid w = (w, get_playback_state now sid w)) ∧
    (row.current_song_start = none → row.current_song_id = some cid →
      (get_session_queue w sid).find? (fun x => x.song.id == cid) = some e →
      resume_playback now sid w =
        start_playback now sid (some e.id) row.paused_position_ms w) ∧
    (row.current_song_start = none → row.current_song_id = some cid →
      (get_session_queue w sid).find? (fun x => x.song.id == cid) = some e →
      get_session_song_by_id w e.id = e' :: es → w.dbWriteOk = true →
      (resume_playback now sid w).2.map PlaybackResult.position_ms =
        .ok row.paused_position_ms ∧
      (get_playback_state (now + t) sid (resume_playback now sid w).1).map
          PlaybackResult.position_ms = .ok (row.paused_position_ms + t)) := by
  refine ⟨fun a ha => ?_, fun hcs hcid hfind => ?_, fun hcs hcid hfind hById hdb => ?_⟩
  · simp [resume_playback, hrow, ha]
  · simp [resume_playback, hrow, hcs, hcid, hfind]
  · have heq : resume_playback now sid w =
        start_playback now sid (some e.id) row.paused_position_ms w := by
      simp [resume_playback, hrow, hcs, hcid, hfind]
    rw [heq]
    simp only [start_playback, hById]
    obtain ⟨h2, _, _, _, _, hsnap, _⟩ :=
      start_resolved_spec now row.paused_position_ms sid e' w row hdb hrow
    rw [h2]
    constructor
    · simp [Except.map, startResult]
    · simp [get_playback_state, hsnap, render, Snapshot.view, startSnap, Except.map]

/-- Durable row of session `"s"` paused at 1500 ms into `songA`. -/
def pausedRow : SessionRow :=
  { room_id := "r", current_song_id := some "TA", current_song_start := none,
    paused_position_ms := 1500 }

/-- The world `baseW` with session `"s"` durably paused at 1500 ms. -/
def pausedW : World :=
  { baseW with sessions := fun s => if s = "s" then some pausedRow else none }

/-- Durable row of session `"s"` durably playing (non-null start). -/
def playingRow : SessionRow :=
  { pausedRow with current_song_start := some 42, paused_position_ms := 0 }

/-- The world `baseW` with session `"s"` durably playing. -/
def playingDbW : World :=
  { baseW with sessions := fun s => if s = "s" then some playingRow else none }

/-- Witness for `resume_preserves_position`: the idempotent guard at
`playingDbW`, and resume-from-1500ms at `pausedW` followed by 600 ms of
play reaching 2100 ms. -/
theorem resume_preserves_position_witness :
    (resume_playback 9999 "s" playingDbW =
      (playingDbW, get_playback_state 9999 "s" playingDbW)) ∧
    (resume_playback 9999 "s" pausedW =
      start_playback 9999 "s" (some entryA.id) pausedRow.paused_position_ms pausedW) ∧
    ((resume_playback 9999 "s" pausedW).2.map PlaybackResult.position_ms =
        .ok pausedRow.paused_position_ms ∧
      (get_playback_state (9999 + 600) "s" (resume_playback 9999 "s" pausedW).1).map
          PlaybackResult.position_ms = .ok (pausedRow.paused_position_ms + 600)) :=
  ⟨(resume_preserves_position 9999 0 "s" "TA" playingDbW playingRow entryA entryA []
      (by decide)).1 42 (by decide),
   (resume_preserves_position 9999 0 "s" "TA" pausedW pausedRow entryA entryA []
      (by decide)).2.1 (by decide) (by decide) (by decide),
   (resume_preserves_position 9999 600 "s" "TA" pausedW pausedRow entryA entryA []
      (by decide)).2.2 (by decide) (by decide) (by decide) (by decide) (by decide)⟩

/-! ### Timer-trace invariant machinery for C1 -/

theorem cancelTimers_append (l₁ l₂ : List Timer) (reg : Option Nat) :
    cancelTimers (l₁ ++ l₂) reg = cancelTimers l₁ reg ++ cancelTimers l₂ reg := by
  cases reg <;> simp [cancelTimers]

theorem cancelTimers_tid_map (l : List Timer) (reg : Option Nat) :
    (cancelTimers l reg).map Timer.tid = l.map Timer.tid := by
  cases reg with
  | none => rfl
  | some m =>
    unfold cancelTimers
    simp only [List.map_map]
    refine List.map_congr_left ?_
    intro t _
    simp only [Function.comp_apply]
    split <;> rfl

/-- A timer left non-cancelled by `cancelTimers` was already in the trace,
non-cancelled, and is not the one the registration pointed at. -/
theorem cancelTimers_live (l : List Timer) (reg : Option Nat) :
    ∀ t ∈ cancelTimers l reg, t.cancelled = false →
      t ∈ l ∧ ∀ n, reg = some n → t.tid ≠ n := by
  unfold cancelTimers
  cases reg with
  | none => exact fun t ht h => ⟨ht, fun n hn => by cases hn⟩
  | some m =>
    intro t ht hlive
    rcases List.mem_map.1 ht with ⟨t₀, ht₀, rfl⟩
    by_cases htid : (t₀.tid == m) = true
    · rw [if_pos htid] at hlive
      cases hlive
    · rw [if_neg htid] at hlive ⊢
      refine ⟨ht₀, fun n hn => ?_⟩
      cases hn
      simpa using htid

/-- If every live timer of the session was the registered one, no timer of
the session survives `cancelTimers` non-cancelled. -/
theorem cancelTimers_no_live (sid : String) (l : List Timer) (reg : Option Nat)
    (h : ∀ t ∈ l, t.session_id = sid → t.cancelled = false → reg = some t.tid) :
    ∀ t ∈ cancelTimers l reg, t.session_id = sid → t.cancelled = true := by
  intro t ht hs
  by_contra hc
  have hlive : t.cancelled = false := by
    revert hc
    cases t.cancelled <;> simp
  obtain ⟨hmem, hne⟩ := cancelTimers_live l reg t ht hlive
  exact hne t.tid (h t hmem hs hlive) rfl

/-- C1 helper: `GoodTimers` forces at most one live timer per session. -/
theorem good_unique_live (w : World) (hG : GoodTimers w) (sid : String)
    (t₁ t₂ : Timer) (h₁ : t₁ ∈ liveTimers w sid) (h₂ : t₂ ∈ liveTimers w sid) :
    t₁ = t₂ := by
  obtain ⟨hn, _, hreg⟩ := hG
  rcases List.mem_filter.1 h₁ with ⟨hm₁, hp₁⟩
  rcases List.mem_filter.1 h₂ with ⟨hm₂, hp₂⟩
  simp only [Bool.and_eq_true, beq_iff_eq, Bool.not_eq_true'] at hp₁ hp₂
  have e₁ := hreg t₁ hm₁ hp₁.2
  have e₂ := hreg t₂ hm₂ hp₂.2
  rw [hp₁.1] at e₁
  rw [hp₂.1] at e₂
  rw [e₁] at e₂
  exact List.inj_on_of_nodup_map hn hm₁ hm₂ (Option.some.inj e₂)

theorem good_cancel (w : World) (sid : String) (hG : GoodTimers w) :
    GoodTimers (_cancel_session_task w sid) := by
  obtain ⟨hn, hb, hreg⟩ := hG
  rw [cancel_eq]
  refine ⟨?_, ?_, ?_⟩
  · show ((cancelTimers w.timers (w.session_tasks sid)).map Timer.tid).Nodup
    rw [cancelTimers_tid_map]
    exact hn
  · exact cancelTimers_tid_lt _ _ _ hb
  · intro t ht hlive
    obtain ⟨hmem, hne⟩ := cancelTimers_live _ _ t ht hlive
    by_cases hs : t.session_id = sid
    · have h1 := hreg t hmem hlive
      rw [hs] at h1
      exact absurd rfl (hne t.tid h1)
    · have h1 := hreg t hmem hlive
      show (if t.session_id = sid then none else w.session_tasks t.session_id) = some t.tid
      rw [if_neg hs]
      exact h1

theorem cancel_no_live (w : World) (sid : String) (hG : GoodTimers w) :
    ∀ t ∈ (_cancel_session_task w sid).timers, t.session_id = sid → t.cancelled = true := by
  rw [cancel_eq]
  exact cancelTimers_no_live sid w.timers (w.session_tasks sid)
    (fun t ht hs hc => by rw [← hs]; exact hG.2.2 t ht hc)

/-- Arming a fresh timer after all of the session's timers were cancelled
preserves the trace invariant. -/
theorem good_arm (w : World) (sid : String) (T : Timer) (hG : GoodTimers w)
    (hT : T.tid = w.nextTid) (hsid : T.session_id = sid) (hc : T.cancelled = false)
    (hnolive : ∀ t ∈ w.timers, t.session_id = sid → t.cancelled = true) :
    GoodTimers
      { w with
          timers := w.timers ++ [T],
          nextTid := w.nextTid + 1,
          session_tasks := fun s => if s = sid then some T.tid else w.session_tasks s } := by
  obtain ⟨hn, hb, hreg⟩ := hG
  refine ⟨?_, ?_, ?_⟩
  · show (List.map Timer.tid (w.timers ++ [T])).Nodup
    rw [List.map_append, List.nodup_append]
    refine ⟨hn, List.nodup_singleton _, ?_⟩
    intro a ha ha'
    rcases List.mem_map.1 ha with ⟨t, ht, rfl⟩
    simp only [List.map_cons, List.map_nil, List.mem_singleton] at ha'
    have hlt := hb t ht
    rw [ha', hT] at hlt
    exact absurd hlt (Nat.lt_irrefl _)
  · intro t ht
    rcases List.mem_append.1 ht with h | h
    · exact Nat.lt_trans (hb t h) (Nat.lt_succ_self _)
    · rw [List.mem_singleton] at h
      rw [h, hT]
      exact Nat.lt_succ_self _
  · intro t ht hlive
    rcases List.mem_append.1 ht with h | h
    · by_cases hs : t.session_id = sid
      · exact absurd (hnolive t h hs) (by simp [hlive])
      · show (if t.session_id = sid then some T.tid else w.session_tasks t.session_id) =
          some t.tid
        rw [if_neg hs]
        exact hreg t h hlive
    · rw [List.mem_singleton] at h
      subst h
      show (if t.session_id = sid then some t.tid else w.session_tasks t.session_id) =
        some t.tid
      rw [if_pos hsid]

theorem good_update (w : World) (sid : String) (csi : Option (Option String))
    (css : Option (Option Int)) (ppm : Option Int) (hG : GoodTimers w) :
    GoodTimers (update_session_playback_state w sid csi css ppm).1 := by
  unfold update_session_playback_state
  split_ifs
  · exact hG
  · exact hG

theorem good_start_resolved (now pos : Int) (sid : String) (e : QueueEntry) (w : World)
    (hG : GoodTimers w) : GoodTimers (start_resolved now sid e pos w).1 := by
  unfold start_resolved update_session_playback_state
  dsimp only
  split
  · next w' err heq =>
    split_ifs at heq
    · exact absurd heq (by simp)
    · cases heq
      exact hG
  · next w' a heq =>
    split_ifs at heq
    · cases heq
      split
      · exact good_arm (_cancel_session_task _ sid) sid _ (good_cancel _ sid hG)
          rfl rfl rfl (cancel_no_live _ sid hG)
      · exact good_arm (_cancel_session_task _ sid) sid _ (good_cancel _ sid hG)
          rfl rfl rfl (cancel_no_live _ sid hG)
    · exact absurd heq (by simp)

theorem good_start (now : Int) (sid : String) (ssid? : Option String) (pos : Int)
    (w : World) (hG : GoodTimers w) :
    GoodTimers (start_playback now sid ssid? pos w).1 := by
  cases ssid? with
  | none =>
    cases hq : get_next_session_song w sid with
    | nil =>
      simp only [start_playback, hq]
      split
      · next w' err heq =>
        have h := good_update w sid (some none) (some none) (some 0) hG
        rw [heq] at h
        exact h
      · next w' a heq =>
        have h := good_update w sid (some none) (some none) (some 0) hG
        rw [heq] at h
        exact h
    | cons e es =>
      simp only [start_playback, hq]
      exact good_start_resolved now pos sid e w hG
  | some ssid =>
    cases hb : get_session_song_by_id w ssid with
    | nil =>
      simp only [start_playback, hb]
      exact hG
    | cons e es =>
      simp only [start_playback, hb]
      exact good_start_resolved now pos sid e w hG

theorem good_play_next (now : Int) (sid : String) (w : World) (hG : GoodTimers w) :
    GoodTimers (_play_next_song now sid w).1 := by
  unfold _play_next_song
  dsimp only
  split
  · exact hG
  · split
    · next e es hnext =>
      split
      · next w' err hsp =>
        have hgs := good_start now sid (some e.id) 0 w hG
        rw [hsp] at hgs
        exact hgs
      · next w' r hsp =>
        have hgs := good_start now sid (some e.id) 0 w hG
        rw [hsp] at hgs
        exact hgs
    · split
      · next w' err heq =>
        have h := good_update w sid (some none) (some none) (some 0) hG
        rw [heq] at h
        exact h
      · next w' a heq =>
        have h := good_update w sid (some none) (some none) (some 0) hG
        rw [heq] at h
        exact h

theorem good_pause_tail (now cp : Int) (sid : String) (w : World) (hG : GoodTimers w) :
    GoodTimers (pause_tail now sid cp w).1 := by
  unfold pause_tail
  cases hsnap : w.snapshots sid with
  | some st =>
    simp only [hsnap]
    split
    · next w' err heq =>
      unfold update_session_playback_state at heq
      split_ifs at heq
      · exact absurd heq (by simp)
      · cases heq
        exact hG
    · next w' a heq =>
      unfold update_session_playback_state at heq
      split_ifs at heq
      · cases heq
        repeat' split
        all_goals exact good_cancel _ _ hG
      · exact absurd heq (by simp)
  | none =>
    simp only [hsnap]
    split
    · next w' err heq =>
      unfold update_session_playback_state at heq
      split_ifs at heq
      · exact absurd heq (by simp)
      · cases heq
        exact hG
    · next w' a heq =>
      unfold update_session_playback_state at heq
      split_ifs at heq
      · cases heq
        repeat' split
        all_goals exact good_cancel _ _ hG
      · exact absurd heq (by simp)

theorem good_pause (now : Int) (sid : String) (w : World) (hG : GoodTimers w) :
    GoodTimers (pause_playback now sid w).1 := by
  unfold pause_playback
  dsimp only
  split
  · exact hG
  · exact good_pause_tail now _ sid w hG

theorem good_skip (now : Int) (sid : String) (w : World) (hG : GoodTimers w) :
    GoodTimers (skip_to_next now sid w).1 := by
  unfold skip_to_next
  repeat' split
  all_goals exact good_play_next now sid _ (good_cancel _ sid hG)

theorem good_resume (now : Int) (sid : String) (w : World) (hG : GoodTimers w) :
    GoodTimers (resume_playback now sid w).1 := by
  unfold resume_playback
  split
  · exact hG
  · split_ifs
    · exact hG
    · split
      · exact good_start now sid none 0 w hG
      · split
        · exact good_start now sid none 0 w hG
        · exact good_start now sid _ _ w hG

/-! ### C1: at most one live timer per session -/

/-- C1: the timer-trace invariant `GoodTimers` forces at most one live
(non-cancelled) auto-advance timer per session; every transition —
`start_playback` (including a superseding start), `pause_playback`,
`skip_to_next`, `resume_playback` — preserves it, because each awaits
`_cancel_session_task` to completion before arming a replacement; and two
sequential `start` calls on the same session leave exactly one live timer
(the most recently armed one, with tid `w.nextTid + 1`) while the timer
armed by the first call (tid `w.nextTid`) ends up cancelled, so only the
most recent timer can ever fire. -/
theorem at_most_one_live_timer (w : World) (hG : GoodTimers w) :
    (∀ sid t₁ t₂, t₁ ∈ liveTimers w sid → t₂ ∈ liveTimers w sid → t₁ = t₂) ∧
    (∀ now sid ssid? pos, GoodTimers (start_playback now sid ssid? pos w).1) ∧
    (∀ now sid, GoodTimers (pause_playback now sid w).1) ∧
    (∀ now sid, GoodTimers (skip_to_next now sid w).1) ∧
    (∀ now sid, GoodTimers (resume_playback now sid w).1) ∧
    (∀ now₁ now₂ sid e es row,
      get_next_session_song w sid = e :: es → w.dbWriteOk = true →
      w.sessions sid = some row →
      (start_playback now₂ sid none 0 (start_playback now₁ sid none 0 w).1).2 =
        .ok (startResult e.song 0 now₂) ∧
      liveTimers (start_playback now₂ sid none 0 (start_playback now₁ sid none 0 w).1).1 sid =
        [{ tid := w.nextTid + 1, session_id := sid, session_song_id := e.id,
           duration_ms := e.song.duration_ms - 0, cancelled := false }] ∧
      (start_playback now₂ sid none 0 (start_playback now₁ sid none 0 w).1).1.timers.filter
          (fun t => t.tid == w.nextTid) =
        [{ tid := w.nextTid, session_id := sid, session_song_id := e.id,
           duration_ms := e.song.duration_ms - 0, cancelled := true }]) := by
  refine ⟨fun sid t₁ t₂ h₁ h₂ => good_unique_live w hG sid t₁ t₂ h₁ h₂,
    fun now sid ssid? pos => good_start now sid ssid? pos w hG,
    fun now sid => good_pause now sid w hG,
    fun now sid => good_skip now sid w hG,
    fun now sid => good_resume now sid w hG,
    ?_⟩
  intro now₁ now₂ sid e es row hq hdb hrow
  have h1 : start_playback now₁ sid none 0 w = start_resolved now₁ sid e 0 w := by
    simp only [start_playback, hq]
  obtain ⟨s2, stim, snext, stask, stasko, ssnap, ssnapo, srow, srowo, sq, sdb, ssongs⟩ :=
    start_resolved_spec now₁ 0 sid e w row hdb hrow
  have hq1 : get_next_session_song (start_resolved now₁ sid e 0 w).1 sid = e :: es := by
    unfold get_next_session_song get_session_queue at hq ⊢
    rw [sq]
    exact hq
  have hdb1 : (start_resolved now₁ sid e 0 w).1.dbWriteOk = true := by
    rw [sdb]
    exact hdb
  obtain ⟨t2, ttim, tnext, ttask, -, tsnap, -, trow, -, tq, tdb, -⟩ :=
    start_resolved_spec now₂ 0 sid e (start_resolved now₁ sid e 0 w).1
      (applyUpd (some (some e.song.id)) (some (some now₁)) (some 0) row) hdb1 srow
  have h2 : start_playback now₂ sid none 0 (start_resolved now₁ sid e 0 w).1 =
      start_resolved now₂ sid e 0 (start_resolved now₁ sid e 0 w).1 := by
    simp only [start_playback, hq1]
  rw [h1, h2]
  -- key fact: after the second cancellation, no timer of the session other
  -- than the second start's own is live
  have hkey : ∀ t ∈ cancelTimers w.timers (w.session_tasks sid) ++ [armedTimer w sid e 0],
      t.session_id = sid → t.cancelled = false → some w.nextTid = some t.tid := by
    intro t htm hs hc
    rcases List.mem_append.1 htm with hl | hr
    · exact absurd
        (cancelTimers_no_live sid w.timers (w.session_tasks sid)
          (fun t' ht' hs' hc' => by rw [← hs']; exact hG.2.2 t' ht' hc') t hl hs)
        (by simp [hc])
    · rw [List.mem_singleton] at hr
      subst hr
      rfl
  have hcanc := cancelTimers_no_live sid _ (some w.nextTid) hkey
  refine ⟨t2, ?_, ?_⟩
  · unfold liveTimers
    rw [ttim, stim, stask, List.filter_append]
    have hnil : (cancelTimers
        (cancelTimers w.timers (w.session_tasks sid) ++ [armedTimer w sid e 0])
        (some w.nextTid)).filter (fun t => t.session_id == sid && !t.cancelled) = [] := by
      rw [List.filter_eq_nil_iff]
      intro t ht
      by_cases hs : t.session_id = sid
      · simp [hs, hcanc t ht hs]
      · simp [hs]
    rw [hnil]
    simp [armedTimer, snext]
  · rw [ttim, stim, stask, cancelTimers_append, List.filter_append, List.filter_append]
    have hA : (cancelTimers (cancelTimers w.timers (w.session_tasks sid))
        (some w.nextTid)).filter (fun t => t.tid == w.nextTid) = [] := by
      rw [List.filter_eq_nil_iff]
      intro t ht
      have hlt := cancelTimers_tid_lt _ (some w.nextTid) w.nextTid
        (cancelTimers_tid_lt _ _ _ hG.2.1) t ht
      simp [Nat.ne_of_lt hlt]
    have hB : cancelTimers [armedTimer w sid e 0] (some w.nextTid) =
        [{ tid := w.nextTid, session_id := sid, session_song_id := e.id,
           duration_ms := e.song.duration_ms - 0, cancelled := true }] := by
      simp [cancelTimers, armedTimer]
    rw [hA, hB]
    simp [armedTimer, snext]

/-- Witness for `at_most_one_live_timer`: `armedW` (one live registered
timer, tid 0) satisfies the invariant, and two sequential queue-pull
starts at times 10 and 20 leave exactly timer 2 live while timer 1 (armed
by the first of the two starts) is cancelled. -/
theorem at_most_one_live_timer_witness :
    GoodTimers armedW ∧
    ((start_playback 20 "s" none 0 (start_playback 10 "s" none 0 armedW).1).2 =
      .ok (startResult entryA.song 0 20) ∧
    liveTimers (start_playback 20 "s" none 0 (start_playback 10 "s" none 0 armedW).1).1 "s" =
      [{ tid := armedW.nextTid + 1, session_id := "s", session_song_id := entryA.id,
         duration_ms := entryA.song.duration_ms - 0, cancelled := false }] ∧
    (start_playback 20 "s" none 0 (start_playback 10 "s" none 0 armedW).1).1.timers.filter
        (fun t => t.tid == armedW.nextTid) =
      [{ tid := armedW.nextTid, session_id := "s", session_song_id := entryA.id,
         duration_ms := entryA.song.duration_ms - 0, cancelled := true }]) :=
  ⟨by decide,
   (at_most_one_live_timer armedW (by decide)).2.2.2.2.2 10 20 "s" entryA [] rowS
     (by decide) (by decide) (by decide)⟩

/-! ### C5: crash recovery of an expired track -/

/-- Durable row of session `"s"` persisted as playing `songA` (3000 ms)
since instant 0. -/
def expiredRow : SessionRow :=
  { room_id := "r", current_song_id := some "TA", current_song_start := some 0,
    paused_position_ms := 0 }

/-- Restart world: the process comes back at time 4000 with `expiredRow`
durable, entry `"e1"` (the current track) still unplayed and the only
queue entry, and no in-memory state. -/
def expiredW : World :=
  { baseW with
    sessions := fun s => if s = "s" then some expiredRow else none,
    queue := [entryA] }

/-- C5 failing input: recovering session `"s"` of `expiredW` at time 4000
(elapsed 4000 ≥ duration 3000) runs the play-next path, but since
`restore_from_database` never marks the expired entry played,
`get_next_session_song` still returns that same entry `"e1"`: the code
restarts the very track that already finished, from position 0, with a
fresh full-duration 3000 ms timer — it neither advances to a next track
nor stops. -/
theorem restore_expired_replays_same_track :
    ((restore_from_database 4000 "s" expiredW).1.snapshots "s").map
        (fun st => (st.song.id, st.position_ms, st.is_playing)) =
      some ("TA", 0, true) ∧
    (restore_from_database 4000 "s" expiredW).1.timers.map
        (fun t => (t.session_song_id, t.duration_ms, t.cancelled)) =
      [("e1", 3000, false)] ∧
    (restore_from_database 4000 "s" expiredW).2 = .ok () ∧
    expiredRow.current_song_id = some "TA" ∧
    songA.duration_ms = 3000 ∧
    (4000 : Int) - 0 ≥ songA.duration_ms ∧
    get_next_session_song expiredW "s" = [entryA] ∧
    entryA.song.id = "TA" := by
  decide

/-! ### Connection fanout (`app/services/websocket_manager.py`) -/

/-- An open WebSocket connection (an identified transport object). -/
structure Conn where
  cid : Nat
deriving DecidableEq

/-- Model of `WebSocketManager.active_connections`: room id → registered
connections, in registration order; absent key = no bucket. -/
structure WSState where
  active_connections : String → Option (List Conn)

/-- Model of `WebSocketManager.disconnect` (lines 32-48): remove the connection if
present (`list.remove` drops the first occurrence), then delete the
room's bucket if the list is empty. -/
def ws_disconnect (st : WSState) (c : Conn) (room : String) : WSState :=
  match st.active_connections room with
  | none => st
  | some l =>
    let l2 := l.erase c
    if l2 = [] then
      { active_connections := fun r => if r = room then none else st.active_connections r }
    else
      { active_connections := fun r => if r = room then some l2 else st.active_connections r }

/-- Model of `WebSocketManager.broadcast_to_room` (lines 50-75): iterate over the
room's list, sending to each connection; a failing send (`fails c = true`)
is caught, logged, and the connection collected into `disconnected`; after
the loop each collected connection is disconnected.  The iteration sees
the list as it was when the loop started — mutation happens only in the
clean-up pass — and the returned list is the successfully delivered
recipients in order. -/
def broadcast_to_room (fails : Conn → Bool) (st : WSState) (room : String) :
    WSState × List Conn :=
  match st.active_connections room with
  | none => (st, [])
  | some l =>
    let delivered := l.filter (fun c => !fails c)
    let disconnected := l.filter (fun c => fails c)
    (disconnected.foldl (fun s c => ws_disconnect s c room) st, delivered)

theorem ws_disconnect_other (st : WSState) (c : Conn) (room r : String) (h : r ≠ room) :
    (ws_disconnect st c room).active_connections r = st.active_connections r := by
  unfold ws_disconnect
  split
  · rfl
  · next l heq =>
    by_cases he : l.erase c = [] <;> simp [he, h]

theorem ws_foldl_other (ds : List Conn) (st : WSState) (room r : String) (h : r ≠ room) :
    (ds.foldl (fun s c => ws_disconnect s c room) st).active_connections r =
      st.active_connections r := by
  induction ds generalizing st with
  | nil => rfl
  | cons d ds ih => rw [List.foldl_cons, ih, ws_disconnect_other st d room r h]

theorem ws_foldl_none (ds : List Conn) (st : WSState) (room : String)
    (h : st.active_connections room = none) :
    ds.foldl (fun s c => ws_disconnect s c room) st = st := by
  induction ds with
  | nil => rfl
  | cons d ds ih =>
    have hd : ws_disconnect st d room = st := by
      unfold ws_disconnect
      rw [h]
    rw [List.foldl_cons, hd, ih]

/-- The room entry left behind by disconnecting `ds` one at a time,
starting from list `l` (`none` = bucket deleted). -/
def entryAfter (l : List Conn) : List Conn → Option (List Conn)
  | [] => some l
  | d :: ds => if l.erase d = [] then none else entryAfter (l.erase d) ds

theorem ws_foldl_entry (ds : List Conn) (st : WSState) (room : String) (l : List Conn)
    (h : st.active_connections room = some l) :
    (ds.foldl (fun s c => ws_disconnect s c room) st).active_connections room =
      entryAfter l ds := by
  induction ds generalizing st l with
  | nil => simpa [entryAfter] using h
  | cons d ds ih =>
    rw [List.foldl_cons]
    unfold entryAfter
    by_cases he : l.erase d = []
    · have hd : ws_disconnect st d room =
          { active_connections := fun r =>
              if r = room then none else st.active_connections r } := by
        unfold ws_disconnect
        rw [h]
        simp [he]
      rw [hd, ws_foldl_none ds _ room (by simp)]
      simp [he]
    · have hd : ws_disconnect st d room =
          { active_connections := fun r =>
              if r = room then some (l.erase d) else st.active_connections r } := by
        unfold ws_disconnect
        rw [h]
        simp [he]
      rw [hd, if_neg he]
      exact ih _ (l.erase d) (by simp)

theorem foldl_erase_cons (ds : List Conn) (x : Conn) (l : List Conn)
    (h : ∀ d ∈ ds, d ≠ x) :
    ds.foldl List.erase (x :: l) = x :: ds.foldl List.erase l := by
  induction ds generalizing l with
  | nil => rfl
  | cons d ds ih =>
    rw [List.foldl_cons, List.foldl_cons,
        List.erase_cons_tail (by simp [(h d (List.mem_cons_self d ds)).symm])]
    exact ih _ (fun d' hd' => h d' (List.mem_cons_of_mem _ hd'))

theorem foldl_erase_filter (p : Conn → Bool) (l : List Conn) :
    (l.filter p).foldl List.erase l = l.filter (fun c => !p c) := by
  induction l with
  | nil => rfl
  | cons x xs ih =>
    by_cases hp : p x
    · rw [List.filter_cons_of_pos hp, List.filter_cons_of_neg (by simp [hp]),
          List.foldl_cons, List.erase_cons_head]
      exact ih
    · rw [List.filter_cons_of_neg (by simpa using hp),
          List.filter_cons_of_pos (by simpa using hp)]
      rw [foldl_erase_cons _ x xs (fun d hd => by
        rcases List.mem_filter.1 hd with ⟨_, hpd⟩
        intro hdx
        rw [hdx] at hpd
        simp [hp] at hpd)]
      rw [ih]

theorem entryAfter_cons (ds : List Conn) (x : Conn) (l : List Conn)
    (h : ∀ d ∈ ds, d ≠ x) :
    entryAfter (x :: l) ds = some (x :: ds.foldl List.erase l) := by
  induction ds generalizing l with
  | nil => rfl
  | cons d ds ih =>
    unfold entryAfter
    rw [List.erase_cons_tail (by simp [(h d (List.mem_cons_self d ds)).symm])]
    rw [if_neg (by simp), List.foldl_cons]
    exact ih _ (fun d' hd' => h d' (List.mem_cons_of_mem _ hd'))

theorem entryAfter_filter (p : Conn → Bool) (l : List Conn) :
    entryAfter l (l.filter p) =
      if l ≠ [] ∧ l.filter (fun c => !p c) = [] then none
      else some (l.filter (fun c => !p c)) := by
  induction l with
  | nil => simp [entryAfter]
  | cons x xs ih =>
    by_cases hp : p x
    · rw [List.filter_cons_of_pos hp]
      unfold entryAfter
      rw [List.erase_cons_head]
      by_cases hxs : xs = []
      · subst hxs
        simp [hp]
      · rw [if_neg hxs, ih]
        simp [hxs, hp]
    · rw [List.filter_cons_of_neg hp]
      rw [entryAfter_cons _ x xs (fun d hd => by
        rcases List.mem_filter.1 hd with ⟨_, hpd⟩
        intro hdx
        rw [hdx] at hpd
        simp [hpd] at hp)]
      rw [foldl_erase_filter]
      simp [hp]

/-! ### C9: broadcast failure isolation -/

/-- C9: `broadcast_to_room` delivers the message to every registered
connection of the room whose send does not fail — one connection's
failure never aborts delivery to the rest — removes exactly the failing
connections from the room's bucket afterwards (deleting the bucket when
it empties), iterates over the list as it was at loop start, and leaves
every other room untouched. -/
theorem broadcast_isolates_failures (fails : Conn → Bool) (st : WSState) (room : String)
    (l : List Conn) (h : st.active_connections room = some l) :
    (broadcast_to_room fails st room).2 = l.filter (fun c => !fails c) ∧
    (∀ c ∈ l, fails c = false → c ∈ (broadcast_to_room fails st room).2) ∧
    ((broadcast_to_room fails st room).1.active_connections room =
      if l ≠ [] ∧ l.filter (fun c => !fails c) = [] then none
      else some (l.filter (fun c => !fails c))) ∧
    (∀ c ∈ l, fails c = true → ∀ l₂,
      (broadcast_to_room fails st room).1.active_connections room = some l₂ → c ∉ l₂) ∧
    (∀ r, r ≠ room → (broadcast_to_room fails st room).1.active_connections r =
      st.active_connections r) := by
  have hsnd : (broadcast_to_room fails st room).2 = l.filter (fun c => !fails c) := by
    unfold broadcast_to_room
    rw [h]
  have hroom : (broadcast_to_room fails st room).1.active_connections room =
      if l ≠ [] ∧ l.filter (fun c => !fails c) = [] then none
      else some (l.filter (fun c => !fails c)) := by
    unfold broadcast_to_room
    rw [h]
    simp only []
    rw [ws_foldl_entry _ _ _ _ h, entryAfter_filter]
  refine ⟨hsnd, ?_, hroom, ?_, ?_⟩
  · intro c hc hok
    rw [hsnd]
    exact List.mem_filter.2 ⟨hc, by simp [hok]⟩
  · intro c _ hfail l₂ hl₂
    rw [hroom] at hl₂
    split at hl₂
    · exact absurd hl₂ (by simp)
    · cases hl₂
      intro hmem
      rcases List.mem_filter.1 hmem with ⟨_, hok⟩
      simp [hfail] at hok
  · intro r hr
    unfold broadcast_to_room
    rw [h]
    exact ws_foldl_other _ _ _ _ hr

/-- Three concrete connections. -/
def conn1 : Conn := ⟨1⟩

/-- Second concrete connection: the one whose send fails. -/
def conn2 : Conn := ⟨2⟩

/-- Third concrete connection. -/
def conn3 : Conn := ⟨3⟩

/-- A fanout state with the three connections registered in room `"r"`. -/
def ws3 : WSState :=
  { active_connections := fun r => if r = "r" then some [conn1, conn2, conn3] else none }

/-- Send failure on `conn2` only. -/
def failsConn2 : Conn → Bool := fun c => c.cid == 2

/-- Witness for `broadcast_isolates_failures`: broadcasting to room `"r"`
of `ws3` while `conn2`'s send fails delivers to `conn1` and `conn3` and
leaves the bucket as `[conn1, conn3]`. -/
theorem broadcast_isolates_failures_witness :
    (broadcast_to_room failsConn2 ws3 "r").2 =
      [conn1, conn2, conn3].filter (fun c => !failsConn2 c) ∧
    (conn1 ∈ (broadcast_to_room failsConn2 ws3 "r").2 ∧
      conn3 ∈ (broadcast_to_room failsConn2 ws3 "r").2) ∧
    ((broadcast_to_room failsConn2 ws3 "r").1.active_connections "r" =
      if [conn1, conn2, conn3] ≠ [] ∧
          [conn1, conn2, conn3].filter (fun c => !failsConn2 c) = [] then none
      else some ([conn1, conn2, conn3].filter (fun c => !failsConn2 c))) ∧
    (broadcast_to_room failsConn2 ws3 "r").1.active_connections "other" =
      ws3.active_connections "other" := by
  obtain ⟨h1, h2, h3, _, h5⟩ :=
    broadcast_isolates_failures failsConn2 ws3 "r" [conn1, conn2, conn3] (by decide)
  exact ⟨h1,
    ⟨h2 conn1 (by decide) (by decide), h2 conn3 (by decide) (by decide)⟩,
    h3, h5 "other" (by decide)⟩

/-! ### C8: failed durable writes -/

/-- The world `baseW` with a failing session state store. -/
def dbDownW : World := { baseW with dbWriteOk := false }

/-- C8 counterexample: when the durable write inside `start_playback`
fails, the error is surfaced, but the in-memory snapshot was already
written (lines 65-72 precede the store call at line 75), so the snapshots
map does not hold the same value as before the failed operation. -/
theorem persist_fail_snapshot_mutated_counterexample :
    (start_playback 1000 "s" (some "e1") 0 dbDownW).2 = .error "Database write failed" ∧
    dbDownW.snapshots "s" = none ∧
    (start_playback 1000 "s" (some "e1") 0 dbDownW).1.snapshots "s" ≠ dbDownW.snapshots "s" := by
  decide

/-- C8 (amended): a failed durable write during `start_playback` or
`pause_playback` is surfaced to the caller on every path, and the
snapshots map is never rolled back.  On the paths that compute a new
snapshot before the write — a start that resolved a track (explicitly or
pulled from the queue), and a pause that found an in-memory snapshot
(playing or already paused) — the map holds the attempted transition's
snapshot after the failure, not the value it held before.  On the paths
that never touch the snapshot — the empty-queue start and the pause with
no in-memory snapshot — the map is unchanged, as the original claim
states. -/
theorem persist_fail_surfaced_snapshot_written
    (now pos : Int) (sid ssid : String) (w : World)
    (hdb : w.dbWriteOk = false) :
    (∀ e es, get_session_song_by_id w ssid = e :: es →
      (start_playback now sid (some ssid) pos w).2 = .error "Database write failed" ∧
      (start_playback now sid (some ssid) pos w).1.snapshots sid =
        some { session_song_id := e.id, song := e.song, started_at := now,
               position_ms := pos, end_time := now + (e.song.duration_ms - pos),
               is_playing := true }) ∧
    (∀ e es, get_next_session_song w sid = e :: es →
      (start_playback now sid none pos w).2 = .error "Database write failed" ∧
      (start_playback now sid none pos w).1.snapshots sid =
        some { session_song_id := e.id, song := e.song, started_at := now,
               position_ms := pos, end_time := now + (e.song.duration_ms - pos),
               is_playing := true }) ∧
    (get_next_session_song w sid = [] →
      (start_playback now sid none pos w).2 = .error "Database write failed" ∧
      (start_playback now sid none pos w).1.snapshots = w.snapshots) ∧
    (∀ st : Snapshot, w.snapshots sid = some st → st.is_playing = true →
      (pause_playback now sid w).2 = .error "Database write failed" ∧
      (pause_playback now sid w).1.snapshots sid =
        some { st with
                 is_playing := false,
                 position_ms := (if st.song.duration_ms != 0
                   then min (st.position_ms + (now - st.started_at)) st.song.duration_ms
                   else st.position_ms + (now - st.started_at)) }) ∧
    (∀ st row, w.snapshots sid = some st → st.is_playing = false →
      w.sessions sid = some row →
      (pause_playback now sid w).2 = .error "Database write failed" ∧
      (pause_playback now sid w).1.snapshots sid =
        some { st with
                 is_playing := false,
                 position_ms := row.paused_position_ms }) ∧
    (∀ row, w.snapshots sid = none → w.sessions sid = some row →
      (pause_playback now sid w).2 = .error "Database write failed" ∧
      (pause_playback now sid w).1.snapshots = w.snapshots) := by
  refine ⟨fun e es hById => ?_, fun e es hq => ?_, fun hq => ?_,
    fun st hsnap hp => ?_, fun st row hsnap hp hrow => ?_, fun row hsnap hrow => ?_⟩
  · simp [start_playback, hById, start_resolved, update_session_playback_state, hdb]
  · simp [start_playback, hq, start_resolved, update_session_playback_state, hdb]
  · simp [start_playback, hq, update_session_playback_state, hdb]
  · simp [pause_playback, pause_tail, hsnap, hp, update_session_playback_state, hdb]
  · simp [pause_playback, pause_tail, hsnap, hp, hrow, update_session_playback_state, hdb]
  · simp [pause_playback, pause_tail, hsnap, hrow, update_session_playback_state, hdb]

/-- The world `dbDownW` with session `"s"` playing `snapA` in memory. -/
def dbDownPlayingW : World :=
  { dbDownW with snapshots := fun s => if s = "s" then some snapA else none }

/-- A non-playing (paused) in-memory snapshot at position 777. -/
def pausedSnap : Snapshot := { snapA with is_playing := false, position_ms := 777 }

/-- The world `dbDownW` with session `"s"` holding the paused snapshot. -/
def dbDownPausedW : World :=
  { dbDownW with snapshots := fun s => if s = "s" then some pausedSnap else none }

/-- The world `dbDownW` with every queue entry already played. -/
def dbDownEmptyW : World :=
  { dbDownW with queue := [{ entryA with played := true, played_at := some 10 }] }

/-- Witness for `persist_fail_surfaced_snapshot_written`: the explicit and
queue-pull starts at `dbDownW`, the empty-queue start at `dbDownEmptyW`,
the playing pause at `dbDownPlayingW`, the paused-snapshot pause at
`dbDownPausedW`, and the snapshot-less pause at `dbDownW`. -/
theorem persist_fail_surfaced_snapshot_written_witness :
    ((start_playback 1000 "s" (some "e1") 0 dbDownW).2 = .error "Database write failed" ∧
      (start_playback 1000 "s" (some "e1") 0 dbDownW).1.snapshots "s" =
        some { session_song_id := entryA.id, song := entryA.song, started_at := 1000,
               position_ms := 0, end_time := 1000 + (entryA.song.duration_ms - 0),
               is_playing := true }) ∧
    ((start_playback 1000 "s" none 0 dbDownW).2 = .error "Database write failed" ∧
      (start_playback 1000 "s" none 0 dbDownW).1.snapshots "s" =
        some { session_song_id := entryA.id, song := entryA.song, started_at := 1000,
               position_ms := 0, end_time := 1000 + (entryA.song.duration_ms - 0),
               is_playing := true }) ∧
    ((start_playback 1000 "s" none 0 dbDownEmptyW).2 = .error "Database write failed" ∧
      (start_playback 1000 "s" none 0 dbDownEmptyW).1.snapshots = dbDownEmptyW.snapshots) ∧
    ((pause_playback 1000 "s" dbDownPlayingW).2 = .error "Database write failed" ∧
      (pause_playback 1000 "s" dbDownPlayingW).1.snapshots "s" =
        some { snapA with
                 is_playing := false,
                 position_ms := (if snapA.song.duration_ms != 0
                   then min (snapA.position_ms + (1000 - snapA.started_at)) snapA.song.duration_ms
                   else snapA.position_ms + (1000 - snapA.started_at)) }) ∧
    ((pause_playback 1000 "s" dbDownPausedW).2 = .error "Database write failed" ∧
      (pause_playback 1000 "s" dbDownPausedW).1.snapshots "s" =
        some { pausedSnap with
                 is_playing := false,
                 position_ms := rowS.paused_position_ms }) ∧
    ((pause_playback 1000 "s" dbDownW).2 = .error "Database write failed" ∧
      (pause_playback 1000 "s" dbDownW).1.snapshots = dbDownW.snapshots) :=
  ⟨(persist_fail_surfaced_snapshot_written 1000 0 "s" "e1" dbDownW (by decide)).1
      entryA [] (by decide),
   (persist_fail_surfaced_snapshot_written 1000 0 "s" "e1" dbDownW (by decide)).2.1
      entryA [] (by decide),
   (persist_fail_surfaced_snapshot_written 1000 0 "s" "e1" dbDownEmptyW (by decide)).2.2.1
      (by decide),
   (persist_fail_surfaced_snapshot_written 1000 0 "s" "e1" dbDownPlayingW (by decide)).2.2.2.1
      snapA (by decide) (by decide),
   (persist_fail_surfaced_snapshot_written 1000 0 "s" "e1" dbDownPausedW (by decide)).2.2.2.2.1
      pausedSnap rowS (by decide) (by decide) (by decide),
   (persist_fail_surfaced_snapshot_written 1000 0 "s" "e1" dbDownW (by decide)).2.2.2.2.2
      rowS (by decide) (by decide)⟩

end Jammy
